import Mathlib

/-!
Shallow embedding of the Sense HAT sensor driver
(src/sensehat-mqtt/sensehat_sensors.py) and proofs about it.

Conventions of the embedding:
* Python float arithmetic is modelled as exact rational arithmetic over ℚ
  (every constant in the driver is a small decimal, exactly representable).
* Python integers are modelled as Int/Nat.
* The smbus2 bus object is modelled as a record of three transaction
  functions, each of which may fail with a bus-level error (an OSError,
  carrying only an errno and no chip/register context).
* Python exceptions raised by the driver code are modelled with an
  explicit error type and Except.
* time.sleep calls have no observable effect in the embedding.
-/

namespace SenseHat

/-- Sense HAT uses I2C bus 1 (module constant I2C_BUS). -/
def I2C_BUS : Nat := 1

/-- HTS221 humidity/temperature chip address (module constant HTS221_ADDR). -/
def HTS221_ADDR : Nat := 0x5F

/-- LPS25H pressure/temperature chip address (module constant LPS25H_ADDR). -/
def LPS25H_ADDR : Nat := 0x5C

/-- Error raised by the underlying smbus2 layer (an OSError). It carries an
errno only: smbus2 attaches no chip or register context to the exception. -/
structure BusError where
  errno : Int
deriving DecidableEq

/-- Python exceptions that can escape the driver code. -/
inductive PyError where
  /-- An OSError propagated from a bus transaction. -/
  | busError (e : BusError)
  /-- ValueError from bytes(data) when a list element is not a byte. -/
  | valueError
  /-- struct.error from struct.unpack on a buffer of the wrong length. -/
  | structError
  /-- IndexError from indexing a too-short list. -/
  | indexError
  /-- FileNotFoundError raised explicitly by the constructor. -/
  | fileNotFoundError (msg : String)
deriving DecidableEq

/-- The I2C bus primitives the driver consumes from smbus2: single-byte
register read, N-byte block read, single-byte register write. Each takes a
7-bit device address and an 8-bit register offset. -/
structure Bus where
  readByte : Nat → Nat → Except BusError Nat
  readBlock : Nat → Nat → Nat → Except BusError (List Nat)
  writeByte : Nat → Nat → Nat → Except BusError Unit

/-- bytes(data) in Python succeeds only when every element is in 0..255. -/
def bytesOk (data : List Nat) : Bool := data.all (fun b => decide (b < 256))

/-- struct.unpack of two bytes, little-endian, as a signed 16-bit value. -/
def unpack_s16 (b0 b1 : Nat) : Int :=
  let u := b0 + 256 * b1
  if u < 32768 then (u : Int) else (u : Int) - 65536

/-- Embedding of _read_s16: read a 16-bit signed value from two consecutive
registers, LSB first, via bus.read_i2c_block_data and struct.unpack. -/
def read_s16 (bus : Bus) (addr register : Nat) : Except PyError Int :=
  match bus.readBlock addr register 2 with
  | .error e => .error (.busError e)
  | .ok data =>
    if bytesOk data then
      match data with
      | [b0, b1] => .ok (unpack_s16 b0 b1)
      | _ => .error .structError
    else .error .valueError

/-- The HTS221 calibration dictionary captured by _init_hts221. -/
structure HTS221Cal where
  H0_rH : ℚ
  H1_rH : ℚ
  T0_degC : ℚ
  T1_degC : ℚ
  H0_T0_OUT : Int
  H1_T0_OUT : Int
  T0_OUT : Int
  T1_OUT : Int
deriving DecidableEq

/-- Driver state after successful construction: the bus handle and the
captured HTS221 calibration record. -/
structure SenseHATSensors where
  bus : Bus
  hts221_cal : HTS221Cal

/-- Embedding of _init_hts221: power-on write, then readout of the eight
calibration fields, mirroring the source line by line. The temperature
anchors are assembled in the 10-bit form: low byte from 0x32/0x33 and the
two high bits from the shared register 0x35. -/
def init_hts221 (bus : Bus) : Except PyError HTS221Cal :=
  match bus.writeByte HTS221_ADDR 0x20 0x87 with
  | .error e => .error (.busError e)
  | .ok _ =>
  match bus.readByte HTS221_ADDR 0x30 with
  | .error e => .error (.busError e)
  | .ok H0_rH_x2 =>
  match bus.readByte HTS221_ADDR 0x31 with
  | .error e => .error (.busError e)
  | .ok H1_rH_x2 =>
  match bus.readByte HTS221_ADDR 0x32 with
  | .error e => .error (.busError e)
  | .ok t0_lsb =>
  match bus.readByte HTS221_ADDR 0x33 with
  | .error e => .error (.busError e)
  | .ok t1_lsb =>
  match bus.readByte HTS221_ADDR 0x35 with
  | .error e => .error (.busError e)
  | .ok t01_msb =>
  let T0_degC_x8 : Nat := ((t01_msb &&& 0x03) <<< 8) ||| t0_lsb
  let T1_degC_x8 : Nat := (((t01_msb >>> 2) &&& 0x03) <<< 8) ||| t1_lsb
  let T0_degC : ℚ := (T0_degC_x8 : ℚ) / 8
  let T1_degC : ℚ := (T1_degC_x8 : ℚ) / 8
  match read_s16 bus HTS221_ADDR 0x36 with
  | .error e => .error e
  | .ok H0_T0_OUT =>
  match read_s16 bus HTS221_ADDR 0x3A with
  | .error e => .error e
  | .ok H1_T0_OUT =>
  match read_s16 bus HTS221_ADDR 0x3C with
  | .error e => .error e
  | .ok T0_OUT =>
  match read_s16 bus HTS221_ADDR 0x3E with
  | .error e => .error e
  | .ok T1_OUT =>
    .ok { H0_rH := (H0_rH_x2 : ℚ) / 2
        , H1_rH := (H1_rH_x2 : ℚ) / 2
        , T0_degC := T0_degC
        , T1_degC := T1_degC
        , H0_T0_OUT := H0_T0_OUT
        , H1_T0_OUT := H1_T0_OUT
        , T0_OUT := T0_OUT
        , T1_OUT := T1_OUT }

/-- Embedding of _init_lps25h: the single power-on configuration write. -/
def init_lps25h (bus : Bus) : Except PyError Unit :=
  match bus.writeByte LPS25H_ADDR 0x20 0x90 with
  | .error e => .error (.busError e)
  | .ok _ => .ok ()

/-- The device path the constructor checks, f-string "/dev/i2c-" and the
bus number. -/
def i2c_dev_path (bus_num : Nat) : String := "/dev/i2c-" ++ toString bus_num

/-- The FileNotFoundError message raised by the constructor. -/
def fnf_message (bus_num : Nat) : String :=
  i2c_dev_path bus_num ++
    " not found. Enable I2C on the host (e.g. HassOS I2C Configurator add-on) " ++
    "and ensure this addon has the device configured (devices: /dev/i2c-1)."

/-- Embedding of SenseHATSensors.__init__. The host filesystem check
os.path.exists is the parameter pathExists; opening the bus with
smbus2.SMBus is the parameter openBus (it may fail with a bus-level
error). On success the driver record holds the bus and the calibration. -/
def SenseHATSensors.init (pathExists : String → Bool)
    (openBus : Nat → Except BusError Bus) (bus_num : Nat) :
    Except PyError SenseHATSensors :=
  if pathExists (i2c_dev_path bus_num) then
    match openBus bus_num with
    | .error e => .error (.busError e)
    | .ok bus =>
      match init_hts221 bus with
      | .error e => .error e
      | .ok cal =>
        match init_lps25h bus with
        | .error e => .error e
        | .ok _ => .ok { bus := bus, hts221_cal := cal }
  else .error (.fileNotFoundError (fnf_message bus_num))

/-- Embedding of _hts221_temp: read T_OUT from 0x2A, then interpolate
between the two temperature anchors, with the midpoint fallback when the
anchor raw counts coincide. Reads mutate no driver state, so the driver
value is returned alongside the result to make that frame fact statable. -/
def SenseHATSensors.hts221_temp (self : SenseHATSensors) :
    Except PyError (ℚ × SenseHATSensors) :=
  match read_s16 self.bus HTS221_ADDR 0x2A with
  | .error e => .error e
  | .ok T_OUT =>
    let c := self.hts221_cal
    let denom : Int := c.T1_OUT - c.T0_OUT
    if denom = 0 then .ok ((c.T0_degC + c.T1_degC) / 2, self)
    else .ok (c.T0_degC + ((T_OUT - c.T0_OUT : Int) : ℚ) * (c.T1_degC - c.T0_degC) / (denom : ℚ), self)

/-- get_temperature_from_humidity simply delegates to _hts221_temp. -/
def SenseHATSensors.get_temperature_from_humidity (self : SenseHATSensors) :
    Except PyError (ℚ × SenseHATSensors) :=
  self.hts221_temp

/-- Embedding of get_temperature_from_pressure: signed 16-bit read from
LPS25H register 0x2B, then the fixed linear model 42.5 + raw / 480.0. -/
def SenseHATSensors.get_temperature_from_pressure (self : SenseHATSensors) :
    Except PyError (ℚ × SenseHATSensors) :=
  match read_s16 self.bus LPS25H_ADDR 0x2B with
  | .error e => .error e
  | .ok raw => .ok (42.5 + (raw : ℚ) / 480, self)

/-- Embedding of get_humidity: read H_T_OUT from 0x28, then interpolate
between the two humidity anchors, with the midpoint fallback when the
anchor raw counts coincide. -/
def SenseHATSensors.get_humidity (self : SenseHATSensors) :
    Except PyError (ℚ × SenseHATSensors) :=
  match read_s16 self.bus HTS221_ADDR 0x28 with
  | .error e => .error e
  | .ok H_T_OUT =>
    let c := self.hts221_cal
    let denom : Int := c.H1_T0_OUT - c.H0_T0_OUT
    if denom = 0 then .ok ((c.H0_rH + c.H1_rH) / 2, self)
    else .ok (c.H0_rH + ((H_T_OUT - c.H0_T0_OUT : Int) : ℚ) * (c.H1_rH - c.H0_rH) / (denom : ℚ), self)

/-- Embedding of get_pressure: 3-byte block read from LPS25H register 0x28,
assembled LSB-first with shifts and ors, sign-adjusted when bit 23 is set,
divided by 4096.0. Indexing data[0]..data[2] raises IndexError when the
list is shorter than 3; extra elements beyond the third are ignored. -/
def SenseHATSensors.get_pressure (self : SenseHATSensors) :
    Except PyError (ℚ × SenseHATSensors) :=
  match self.bus.readBlock LPS25H_ADDR 0x28 3 with
  | .error e => .error (.busError e)
  | .ok data =>
    match data with
    | d0 :: d1 :: d2 :: _ =>
      let raw0 : Nat := d0 ||| (d1 <<< 8) ||| (d2 <<< 16)
      let raw : Int := if raw0 &&& 0x800000 ≠ 0 then (raw0 : Int) - 0x1000000 else (raw0 : Int)
      .ok ((raw : ℚ) / 4096, self)
    | _ => .error .indexError

/-! Helper instances, simulated buses, and byte-level lemmas. -/

instance {ε α : Type} [DecidableEq ε] [DecidableEq α] : DecidableEq (Except ε α) := fun x y =>
  match x, y with
  | .ok a, .ok b =>
      if h : a = b then .isTrue (by rw [h]) else .isFalse (fun hc => h (Except.ok.inj hc))
  | .error a, .error b =>
      if h : a = b then .isTrue (by rw [h]) else .isFalse (fun hc => h (Except.error.inj hc))
  | .ok _, .error _ => .isFalse (fun hc => Except.noConfusion hc)
  | .error _, .ok _ => .isFalse (fun hc => Except.noConfusion hc)

/-- The value fits in a signed 16-bit register pair. -/
def isS16 (v : Int) : Prop := -32768 ≤ v ∧ v < 32768

instance (v : Int) : Decidable (isS16 v) := inferInstanceAs (Decidable (_ ∧ _))

/-- Little-endian two-byte encoding of a signed 16-bit value, as the chip
would present it on the bus. -/
def s16ToBytes (v : Int) : List Nat :=
  [(v % 65536).toNat % 256, (v % 65536).toNat / 256]

/-- A bus whose every block read answers with the encoding of one fixed
signed 16-bit value; used to feed a chosen raw reading to a read path. -/
def rawBus (v : Int) : Bus where
  readByte := fun _ _ => .ok 0
  readBlock := fun _ _ _ => .ok (s16ToBytes v)
  writeByte := fun _ _ _ => .ok ()

/-- A bus whose every block read answers with two fixed raw bytes. -/
def byteBus (b0 b1 : Nat) : Bus where
  readByte := fun _ _ => .ok 0
  readBlock := fun _ _ _ => .ok [b0, b1]
  writeByte := fun _ _ _ => .ok ()

/-- A bus whose every block read answers with a fixed byte list. -/
def blockBus (data : List Nat) : Bus where
  readByte := fun _ _ => .ok 0
  readBlock := fun _ _ _ => .ok data
  writeByte := fun _ _ _ => .ok ()

/-- A bus on which every transaction fails with the same OSError, as when
the device NACKs every access. -/
def failBus (e : BusError) : Bus where
  readByte := fun _ _ => .error e
  readBlock := fun _ _ _ => .error e
  writeByte := fun _ _ _ => .error e

/-- A simulated HTS221 whose calibration registers and measurement
registers hold the given contents (single-byte registers by name, 16-bit
register pairs as signed values). -/
def calSimBus (h0x2 h1x2 t0l t1l msb : Nat) (h0out h1out t0out t1out hraw traw : Int) : Bus where
  readByte := fun _ r =>
    if r = 0x30 then .ok h0x2
    else if r = 0x31 then .ok h1x2
    else if r = 0x32 then .ok t0l
    else if r = 0x33 then .ok t1l
    else if r = 0x35 then .ok msb
    else .ok 0
  readBlock := fun _ r _ =>
    if r = 0x36 then .ok (s16ToBytes h0out)
    else if r = 0x3A then .ok (s16ToBytes h1out)
    else if r = 0x3C then .ok (s16ToBytes t0out)
    else if r = 0x3E then .ok (s16ToBytes t1out)
    else if r = 0x28 then .ok (s16ToBytes hraw)
    else .ok (s16ToBytes traw)
  writeByte := fun _ _ _ => .ok ()

/-- Oring a value below 2 to the n with a value shifted left by n is plain
addition: the two operands occupy disjoint bit ranges. -/
theorem lor_shiftLeft_eq_add : ∀ (n a b : ℕ), a < 2 ^ n → a ||| b <<< n = a + b <<< n := by
  intro n
  induction n with
  | zero =>
    intro a b h
    have ha : a = 0 := by omega
    subst ha
    simp
  | succ n ih =>
    intro a b h
    have hbit : Nat.bit a.bodd a.div2 = a := Nat.bit_decomp a
    have hs : b <<< (n + 1) = Nat.bit false (b <<< n) := by
      rw [Nat.bit_val]
      simp [Nat.shiftLeft_eq, pow_succ]
      ring
    have hd : a.div2 < 2 ^ n := by
      have := Nat.div2_val a
      have hp : 2 ^ (n + 1) = 2 * 2 ^ n := by ring
      omega
    have key : a ||| b <<< (n + 1) = Nat.bit a.bodd (a.div2 + b <<< n) := by
      calc a ||| b <<< (n + 1) = Nat.bit a.bodd a.div2 ||| Nat.bit false (b <<< n) := by
            rw [hbit, hs]
        _ = Nat.bit (a.bodd || false) (a.div2 ||| b <<< n) := Nat.lor_bit _ _ _ _
        _ = Nat.bit a.bodd (a.div2 + b <<< n) := by rw [Bool.or_false, ih _ _ hd]
    rw [key, Nat.bit_val]
    have h2 : (a.bodd).toNat + 2 * a.div2 = a := Nat.bodd_add_div2 a
    have hs2 : b <<< (n + 1) = 2 * (b <<< n) := by
      simp [Nat.shiftLeft_eq, pow_succ]
      ring
    omega

/-- A value shifted left by 8 ored with a byte is base-256 positional
assembly. -/
theorem shl8_lor_byte (x b : Nat) (hb : b < 256) : (x <<< 8) ||| b = x * 256 + b := by
  rw [Nat.lor_comm, lor_shiftLeft_eq_add 8 b x (by omega), Nat.shiftLeft_eq]
  have hx : x * 2 ^ 8 = x * 256 := by norm_num
  omega

/-- Assembling three bytes LSB-first with shifts and ors equals the
little-endian base-256 value. -/
theorem bytes3_val (d0 d1 d2 : ℕ) (h0 : d0 < 256) (h1 : d1 < 256) :
    d0 ||| d1 <<< 8 ||| d2 <<< 16 = d0 + d1 * 256 + d2 * 65536 := by
  have e1 : d0 ||| d1 <<< 8 = d0 + d1 <<< 8 := lor_shiftLeft_eq_add 8 d0 d1 (by omega)
  have s8 : d1 <<< 8 = d1 * 256 := by simp [Nat.shiftLeft_eq]
  have hlt : d0 + d1 <<< 8 < 2 ^ 16 := by omega
  have e2 : (d0 + d1 <<< 8) ||| d2 <<< 16 = d0 + d1 <<< 8 + d2 <<< 16 :=
    lor_shiftLeft_eq_add 16 _ d2 hlt
  have s16 : d2 <<< 16 = d2 * 65536 := by simp [Nat.shiftLeft_eq]
  rw [e1, e2, s8, s16]

/-- Testing bit 23 with a mask is the same as comparing against 2 to the
23, for 24-bit words. -/
theorem sign_test (u : ℕ) (hu : u < 16777216) : (u &&& 0x800000 ≠ 0) ↔ 8388608 ≤ u := by
  have h : u &&& 2 ^ 23 = (u.testBit 23).toNat * 2 ^ 23 := Nat.and_two_pow u 23
  have h23 : (2 : ℕ) ^ 23 = 8388608 := by norm_num
  rw [Nat.testBit_to_div_mod, h23] at h
  show u &&& 8388608 ≠ 0 ↔ 8388608 ≤ u
  rw [h]
  rcases Nat.lt_or_ge u 8388608 with hlt | hge
  · have hz : u / 8388608 = 0 := by omega
    simp [hz]
    omega
  · have ho : u / 8388608 = 1 := by omega
    simp [ho]
    omega

/-- Decoding the little-endian byte pair of a signed 16-bit value recovers
the value. -/
theorem unpack_s16_s16ToBytes (v : Int) (h : isS16 v) :
    unpack_s16 ((v % 65536).toNat % 256) ((v % 65536).toNat / 256) = v := by
  rcases h with ⟨hlo, hhi⟩
  unfold unpack_s16
  have h1 : 0 ≤ v % 65536 := Int.emod_nonneg v (by norm_num)
  have h2 : v % 65536 < 65536 := Int.emod_lt_of_pos v (by norm_num)
  simp only []
  split <;> omega

/-- A successful two-byte block read of in-range bytes makes read_s16
return the decoded signed value. -/
theorem read_s16_ok (bus : Bus) (addr register b0 b1 : Nat)
    (hread : bus.readBlock addr register 2 = .ok [b0, b1])
    (h0 : b0 < 256) (h1 : b1 < 256) :
    read_s16 bus addr register = .ok (unpack_s16 b0 b1) := by
  unfold read_s16
  rw [hread]
  have hok : bytesOk [b0, b1] = true := by
    simp [bytesOk, h0, h1]
  simp [hok]

/-- A failed block read makes read_s16 surface the bus error. -/
theorem read_s16_error (bus : Bus) (addr register : Nat) (e : BusError)
    (hread : bus.readBlock addr register 2 = .error e) :
    read_s16 bus addr register = .error (.busError e) := by
  unfold read_s16
  rw [hread]

/-- A block read answering with the encoding of a signed 16-bit value makes
read_s16 return that value. -/
theorem read_s16_s16ToBytes (bus : Bus) (addr register : Nat) (v : Int)
    (hread : bus.readBlock addr register 2 = .ok (s16ToBytes v)) (hv : isS16 v) :
    read_s16 bus addr register = .ok v := by
  have h1 : 0 ≤ v % 65536 := Int.emod_nonneg v (by norm_num)
  have h2 : v % 65536 < 65536 := Int.emod_lt_of_pos v (by norm_num)
  have h0 : (v % 65536).toNat % 256 < 256 := Nat.mod_lt _ (by norm_num)
  have h1' : (v % 65536).toNat / 256 < 256 := by omega
  rw [read_s16_ok bus addr register _ _ hread h0 h1', unpack_s16_s16ToBytes v hv]

/-- On the fixed-value bus every read_s16 returns the fixed value. -/
theorem read_s16_rawBus (v : Int) (hv : isS16 v) (addr register : Nat) :
    read_s16 (rawBus v) addr register = .ok v :=
  read_s16_s16ToBytes (rawBus v) addr register v rfl hv

/-! Definitions taken from the words of the specification, for comparison
with the code-derived definitions above. -/

/-- Follows the claim text: exact linear interpolation
v0 + (raw - rawAt0) * (v1 - v0) / (rawAt1 - rawAt0) on rational values. -/
def linear_interp_spec (v0 v1 : ℚ) (r0 r1 raw : Int) : ℚ :=
  v0 + ((raw : ℚ) - (r0 : ℚ)) * (v1 - v0) / ((r1 : ℚ) - (r0 : ℚ))

/-- Follows the spec text: a 24-bit little-endian word read as twos
complement, subtracting 2 to the 24 when bit 23 is set. -/
def s24_of_word (u : Nat) : Int :=
  if 8388608 ≤ u then (u : Int) - 16777216 else (u : Int)

/-- Follows the spec text: the 10-bit combined temperature-anchor layout,
the two shared high bits in front of the low byte, divided by 8. -/
def temp_anchor_combined_spec (lsb msbBits : Nat) : ℚ :=
  ((msbBits * 256 + lsb : Nat) : ℚ) / 8

/-- Follows the spec text: the alternate single-byte temperature-anchor
layout, one byte directly divided by 8. -/
def temp_anchor_single_spec (b : Nat) : ℚ := (b : ℚ) / 8

/-- The value lies strictly outside the closed interval spanned by a and b. -/
def outsideQ (x a b : ℚ) : Prop := x < min a b ∨ max a b < x

instance (x a b : ℚ) : Decidable (outsideQ x a b) := inferInstanceAs (Decidable (_ ∨ _))

/-- The integer lies strictly outside the closed interval spanned by a and b. -/
def outsideZ (x a b : Int) : Prop := x < min a b ∨ max a b < x

instance (x a b : Int) : Decidable (outsideZ x a b) := inferInstanceAs (Decidable (_ ∨ _))

/-! Concrete calibration records used to instantiate theorems. -/

/-- A well-formed calibration record with distinct anchors per quantity. -/
def calA : HTS221Cal :=
  { H0_rH := 40, H1_rH := 90, T0_degC := 10, T1_degC := 30
  , H0_T0_OUT := 100, H1_T0_OUT := 1100, T0_OUT := 0, T1_OUT := 1000 }

/-- A degenerate calibration record: both anchor raw counts coincide for
both quantities. -/
def calDeg : HTS221Cal :=
  { H0_rH := 40, H1_rH := 90, T0_degC := 10, T1_degC := 30
  , H0_T0_OUT := 500, H1_T0_OUT := 500, T0_OUT := 250, T1_OUT := 250 }

/-- A calibration record with distinct anchors but equal reference values. -/
def calEqRef : HTS221Cal :=
  { H0_rH := 50, H1_rH := 50, T0_degC := 20, T1_degC := 20
  , H0_T0_OUT := 0, H1_T0_OUT := 100, T0_OUT := 0, T1_OUT := 100 }

/-! Evaluation lemmas: each read operation applied to a simulated bus. -/

/-- With distinct temperature anchors, the temperature path computes the
spec interpolation formula on the raw reading. -/
theorem hts221_temp_rawBus (c : HTS221Cal) (v : Int) (hv : isS16 v)
    (hne : c.T1_OUT ≠ c.T0_OUT) :
    SenseHATSensors.hts221_temp ⟨rawBus v, c⟩ =
      .ok (linear_interp_spec c.T0_degC c.T1_degC c.T0_OUT c.T1_OUT v, ⟨rawBus v, c⟩) := by
  unfold SenseHATSensors.hts221_temp
  rw [read_s16_rawBus v hv]
  dsimp only
  rw [if_neg (sub_ne_zero_of_ne hne)]
  simp only [Except.ok.injEq, Prod.mk.injEq]
  constructor
  · unfold linear_interp_spec
    push_cast
    ring
  · trivial

/-- With distinct humidity anchors, the humidity path computes the spec
interpolation formula on the raw reading. -/
theorem get_humidity_rawBus (c : HTS221Cal) (v : Int) (hv : isS16 v)
    (hne : c.H1_T0_OUT ≠ c.H0_T0_OUT) :
    SenseHATSensors.get_humidity ⟨rawBus v, c⟩ =
      .ok (linear_interp_spec c.H0_rH c.H1_rH c.H0_T0_OUT c.H1_T0_OUT v, ⟨rawBus v, c⟩) := by
  unfold SenseHATSensors.get_humidity
  rw [read_s16_rawBus v hv]
  dsimp only
  rw [if_neg (sub_ne_zero_of_ne hne)]
  simp only [Except.ok.injEq, Prod.mk.injEq]
  constructor
  · unfold linear_interp_spec
    push_cast
    ring
  · trivial

/-- The spec interpolation returns the first reference value exactly at the
first anchor. -/
theorem linear_interp_spec_at_r0 (v0 v1 : ℚ) (r0 r1 : Int) :
    linear_interp_spec v0 v1 r0 r1 r0 = v0 := by
  unfold linear_interp_spec
  rw [sub_self, zero_mul, zero_div, add_zero]

/-- The spec interpolation returns the second reference value exactly at
the second anchor, whenever the anchors differ. -/
theorem linear_interp_spec_at_r1 (v0 v1 : ℚ) (r0 r1 : Int) (h : r1 ≠ r0) :
    linear_interp_spec v0 v1 r0 r1 r1 = v1 := by
  unfold linear_interp_spec
  have hne : (r1 : ℚ) - (r0 : ℚ) ≠ 0 := by
    have : (r1 : ℚ) ≠ (r0 : ℚ) := by exact_mod_cast h
    exact sub_ne_zero_of_ne this
  field_simp

/-! Claim theorems. -/

/-- C1: with distinct anchor raw counts (T1_OUT different from T0_OUT for
temperature, H1_T0_OUT different from H0_T0_OUT for humidity), the
temperature-from-humidity and humidity reads compute exact linear
interpolation v0 + (raw - rawAt0) * (v1 - v0) / (rawAt1 - rawAt0) over the
raw 16-bit reading; feeding raw equal to an anchor returns the matching
reference value exactly. -/
theorem hts221_interpolation_exact (c : HTS221Cal)
    (ht : c.T1_OUT ≠ c.T0_OUT) (hh : c.H1_T0_OUT ≠ c.H0_T0_OUT) :
    (∀ v : Int, isS16 v →
      SenseHATSensors.hts221_temp ⟨rawBus v, c⟩ =
        .ok (linear_interp_spec c.T0_degC c.T1_degC c.T0_OUT c.T1_OUT v, ⟨rawBus v, c⟩))
    ∧ (∀ v : Int, isS16 v →
      SenseHATSensors.get_humidity ⟨rawBus v, c⟩ =
        .ok (linear_interp_spec c.H0_rH c.H1_rH c.H0_T0_OUT c.H1_T0_OUT v, ⟨rawBus v, c⟩))
    ∧ (isS16 c.T0_OUT →
      (SenseHATSensors.hts221_temp ⟨rawBus c.T0_OUT, c⟩).map Prod.fst = .ok c.T0_degC)
    ∧ (isS16 c.T1_OUT →
      (SenseHATSensors.hts221_temp ⟨rawBus c.T1_OUT, c⟩).map Prod.fst = .ok c.T1_degC)
    ∧ (isS16 c.H0_T0_OUT →
      (SenseHATSensors.get_humidity ⟨rawBus c.H0_T0_OUT, c⟩).map Prod.fst = .ok c.H0_rH)
    ∧ (isS16 c.H1_T0_OUT →
      (SenseHATSensors.get_humidity ⟨rawBus c.H1_T0_OUT, c⟩).map Prod.fst = .ok c.H1_rH) := by
  refine ⟨fun v hv => hts221_temp_rawBus c v hv ht,
          fun v hv => get_humidity_rawBus c v hv hh, ?_, ?_, ?_, ?_⟩
  · intro h
    rw [hts221_temp_rawBus c _ h ht, linear_interp_spec_at_r0]
    rfl
  · intro h
    rw [hts221_temp_rawBus c _ h ht, linear_interp_spec_at_r1 _ _ _ _ ht]
    rfl
  · intro h
    rw [get_humidity_rawBus c _ h hh, linear_interp_spec_at_r0]
    rfl
  · intro h
    rw [get_humidity_rawBus c _ h hh, linear_interp_spec_at_r1 _ _ _ _ hh]
    rfl

/-- Witness for C1: a concrete calibration and raw reading, evaluated. -/
theorem hts221_interpolation_exact_witness :
    SenseHATSensors.get_humidity ⟨rawBus 600, calA⟩ =
      .ok (linear_interp_spec 40 90 100 1100 600, ⟨rawBus 600, calA⟩) ∧
    linear_interp_spec 40 90 100 1100 600 = 65 := by
  constructor
  · exact (hts221_interpolation_exact calA (by decide) (by decide)).2.1 600 (by decide)
  · norm_num [linear_interp_spec]

/-- C2: the pressure read decodes its 3 raw bytes (LSB, mid, MSB) as a
24-bit little-endian twos-complement integer, subtracting 2 to the 24
when bit 23 is set, and divides by 4096; bytes 0,0,0 give exactly 0 hPa
and bytes 255,255,255 give exactly -1/4096 hPa. -/
theorem pressure_decode_s24 (c : HTS221Cal) (d0 d1 d2 : Nat)
    (h0 : d0 < 256) (h1 : d1 < 256) (h2 : d2 < 256) :
    SenseHATSensors.get_pressure ⟨blockBus [d0, d1, d2], c⟩ =
      .ok ((s24_of_word (d0 + d1 * 256 + d2 * 65536) : ℚ) / 4096, ⟨blockBus [d0, d1, d2], c⟩)
    ∧ SenseHATSensors.get_pressure ⟨blockBus [0, 0, 0], c⟩ =
      .ok (0, ⟨blockBus [0, 0, 0], c⟩)
    ∧ SenseHATSensors.get_pressure ⟨blockBus [255, 255, 255], c⟩ =
      .ok (-1 / 4096, ⟨blockBus [255, 255, 255], c⟩) := by
  have hgen : ∀ e0 e1 e2 : Nat, e0 < 256 → e1 < 256 → e2 < 256 →
      SenseHATSensors.get_pressure ⟨blockBus [e0, e1, e2], c⟩ =
        .ok ((s24_of_word (e0 + e1 * 256 + e2 * 65536) : ℚ) / 4096,
             ⟨blockBus [e0, e1, e2], c⟩) := by
    intro e0 e1 e2 g0 g1 g2
    unfold SenseHATSensors.get_pressure blockBus
    dsimp only
    have hb : e0 ||| e1 <<< 8 ||| e2 <<< 16 = e0 + e1 * 256 + e2 * 65536 :=
      bytes3_val e0 e1 e2 g0 g1
    rw [hb]
    have hu : e0 + e1 * 256 + e2 * 65536 < 16777216 := by omega
    by_cases hs : 8388608 ≤ e0 + e1 * 256 + e2 * 65536
    · rw [if_pos ((sign_test _ hu).mpr hs)]
      unfold s24_of_word
      rw [if_pos hs]
    · rw [if_neg (fun hcon => hs ((sign_test _ hu).mp hcon))]
      unfold s24_of_word
      rw [if_neg hs]
  refine ⟨hgen d0 d1 d2 h0 h1 h2, ?_, ?_⟩
  · rw [hgen 0 0 0 (by norm_num) (by norm_num) (by norm_num)]
    simp only [Except.ok.injEq, Prod.mk.injEq]
    refine ⟨?_, trivial⟩
    norm_num [s24_of_word]
  · rw [hgen 255 255 255 (by norm_num) (by norm_num) (by norm_num)]
    simp only [Except.ok.injEq, Prod.mk.injEq]
    refine ⟨?_, trivial⟩
    norm_num [s24_of_word]

/-- Witness for C2: a concrete negative 24-bit reading, evaluated. -/
theorem pressure_decode_s24_witness :
    SenseHATSensors.get_pressure ⟨blockBus [0, 16, 128], calA⟩ =
      .ok ((s24_of_word (0 + 16 * 256 + 128 * 65536) : ℚ) / 4096,
           ⟨blockBus [0, 16, 128], calA⟩) ∧
    (s24_of_word (0 + 16 * 256 + 128 * 65536) : ℚ) / 4096 = -8384512 / 4096 := by
  constructor
  · exact (pressure_decode_s24 calA 0 16 128 (by decide) (by decide) (by decide)).1
  · norm_num [s24_of_word]

/-- C3: when the two anchor raw counts coincide, the temperature-from-
humidity and humidity reads return the midpoint of the two reference
values for every successfully read raw byte pair; no error is raised and
the interpolation division is only reached under the nonzero guard. -/
theorem degenerate_calibration_midpoint (c : HTS221Cal)
    (hT : c.T1_OUT = c.T0_OUT) (hH : c.H1_T0_OUT = c.H0_T0_OUT)
    (b0 b1 : Nat) (h0 : b0 < 256) (h1 : b1 < 256) :
    SenseHATSensors.hts221_temp ⟨byteBus b0 b1, c⟩ =
      .ok ((c.T0_degC + c.T1_degC) / 2, ⟨byteBus b0 b1, c⟩)
    ∧ SenseHATSensors.get_humidity ⟨byteBus b0 b1, c⟩ =
      .ok ((c.H0_rH + c.H1_rH) / 2, ⟨byteBus b0 b1, c⟩) := by
  have hread : ∀ addr register : Nat,
      read_s16 (byteBus b0 b1) addr register = .ok (unpack_s16 b0 b1) :=
    fun addr register => read_s16_ok _ addr register b0 b1 rfl h0 h1
  constructor
  · unfold SenseHATSensors.hts221_temp
    rw [hread]
    dsimp only
    rw [if_pos (by rw [hT, sub_self])]
  · unfold SenseHATSensors.get_humidity
    rw [hread]
    dsimp only
    rw [if_pos (by rw [hH, sub_self])]

/-- Witness for C3: a concrete degenerate calibration, evaluated. -/
theorem degenerate_calibration_midpoint_witness :
    SenseHATSensors.get_humidity ⟨byteBus 88 2, calDeg⟩ =
      .ok ((calDeg.H0_rH + calDeg.H1_rH) / 2, ⟨byteBus 88 2, calDeg⟩) ∧
    (calDeg.H0_rH + calDeg.H1_rH) / 2 = 65 := by
  constructor
  · exact (degenerate_calibration_midpoint calDeg rfl rfl 88 2 (by decide) (by decide)).2
  · norm_num [calDeg]

/-- The simulated bus of the round-trip scenario: H0_rH_x2 equal to 80,
H1_rH_x2 equal to 180, anchors H0_T0_OUT equal to 100 and H1_T0_OUT equal
to 1100, humidity raw register equal to 600, all other registers zero. -/
def c4Bus : Bus := calSimBus 80 180 0 0 0 100 1100 0 0 600 0

/-- C4: end-to-end round trip against the simulated bus: initialization
captures H0_rH 40, H1_rH 90 and the anchors 100 and 1100, and a humidity
read of raw 600 returns exactly 65 percent. -/
theorem humidity_roundtrip_65 :
    (SenseHATSensors.init (fun _ => true) (fun _ => .ok c4Bus) 1).map
        (fun d => d.hts221_cal) = .ok
      { H0_rH := 40, H1_rH := 90, T0_degC := 0, T1_degC := 0
      , H0_T0_OUT := 100, H1_T0_OUT := 1100, T0_OUT := 0, T1_OUT := 0 }
    ∧ (SenseHATSensors.init (fun _ => true) (fun _ => .ok c4Bus) 1).map
        (fun d => (d.get_humidity).map Prod.fst) = .ok (.ok 65) := by
  constructor <;>
    · norm_num [SenseHATSensors.init, init_hts221, init_lps25h, c4Bus, calSimBus,
        read_s16, bytesOk, unpack_s16, s16ToBytes, i2c_dev_path,
        SenseHATSensors.get_humidity, Except.map, HTS221_ADDR, LPS25H_ADDR,
        show Int.toNat 100 = 100 from rfl, show Int.toNat 1100 = 1100 from rfl,
        show Int.toNat 600 = 600 from rfl]

/-- C5: the temperature-from-pressure read decodes a signed 16-bit
little-endian raw value and returns 42.5 + raw / 480 using no calibration
state; raw 0 gives exactly 42.5 and raw 480 gives exactly 43.5. -/
theorem temp_from_pressure_formula (c : HTS221Cal) (v : Int) (hv : isS16 v) :
    SenseHATSensors.get_temperature_from_pressure ⟨rawBus v, c⟩ =
      .ok (42.5 + (v : ℚ) / 480, ⟨rawBus v, c⟩)
    ∧ (SenseHATSensors.get_temperature_from_pressure ⟨rawBus 0, c⟩).map Prod.fst = .ok 42.5
    ∧ (SenseHATSensors.get_temperature_from_pressure ⟨rawBus 480, c⟩).map Prod.fst = .ok 43.5 := by
  have hgen : ∀ w : Int, isS16 w →
      SenseHATSensors.get_temperature_from_pressure ⟨rawBus w, c⟩ =
        .ok (42.5 + (w : ℚ) / 480, ⟨rawBus w, c⟩) := by
    intro w hw
    unfold SenseHATSensors.get_temperature_from_pressure
    rw [read_s16_rawBus w hw]
  refine ⟨hgen v hv, ?_, ?_⟩
  · rw [hgen 0 (by decide)]
    simp only [Except.map, Except.ok.injEq]
    push_cast
    norm_num
  · rw [hgen 480 (by decide)]
    simp only [Except.map, Except.ok.injEq]
    push_cast
    norm_num

/-- Witness for C5: a concrete raw reading, evaluated. -/
theorem temp_from_pressure_formula_witness :
    SenseHATSensors.get_temperature_from_pressure ⟨rawBus 960, calA⟩ =
      .ok (42.5 + (960 : ℚ) / 480, ⟨rawBus 960, calA⟩) ∧
    (42.5 : ℚ) + (960 : ℚ) / 480 = 44.5 := by
  constructor
  · exact (temp_from_pressure_formula calA 960 (by decide)).1
  · norm_num

/-- C9: every read operation leaves the driver state, and in particular
the captured calibration record, unchanged: whatever the bus does, the
driver value carried by a successful result is the input driver itself,
and a failure produces no altered driver at all. -/
theorem reads_preserve_calibration (d : SenseHATSensors) :
    (d.hts221_temp).map Prod.snd = (d.hts221_temp).map (fun _ => d)
    ∧ (d.get_temperature_from_humidity).map Prod.snd =
        (d.get_temperature_from_humidity).map (fun _ => d)
    ∧ (d.get_temperature_from_pressure).map Prod.snd =
        (d.get_temperature_from_pressure).map (fun _ => d)
    ∧ (d.get_humidity).map Prod.snd = (d.get_humidity).map (fun _ => d)
    ∧ (d.get_pressure).map Prod.snd = (d.get_pressure).map (fun _ => d) := by
  have htemp : (d.hts221_temp).map Prod.snd = (d.hts221_temp).map (fun _ => d) := by
    unfold SenseHATSensors.hts221_temp
    cases read_s16 d.bus HTS221_ADDR 0x2A with
    | error e => rfl
    | ok T =>
      dsimp only
      split <;> rfl
  refine ⟨htemp, htemp, ?_, ?_, ?_⟩
  · unfold SenseHATSensors.get_temperature_from_pressure
    cases read_s16 d.bus LPS25H_ADDR 0x2B with
    | error e => rfl
    | ok raw => rfl
  · unfold SenseHATSensors.get_humidity
    cases read_s16 d.bus HTS221_ADDR 0x28 with
    | error e => rfl
    | ok H =>
      dsimp only
      split <;> rfl
  · unfold SenseHATSensors.get_pressure
    cases d.bus.readBlock LPS25H_ADDR 0x28 3 with
    | error e => rfl
    | ok data =>
      rcases data with _ | ⟨d0, _ | ⟨d1, _ | ⟨d2, rest⟩⟩⟩
      · rfl
      · rfl
      · rfl
      · dsimp only
        split <;> rfl

/-- C7 amended: a bus transaction failure during any read propagates
immediately and unchanged to the caller as the underlying bus exception;
it is never swallowed and never replaced by a default value. The driver
adds no chip or register identification of its own. -/
theorem bus_error_propagation (c : HTS221Cal) (e : BusError) :
    (∀ bus : Bus, bus.readBlock HTS221_ADDR 0x2A 2 = .error e →
      SenseHATSensors.hts221_temp ⟨bus, c⟩ = .error (.busError e))
    ∧ (∀ bus : Bus, bus.readBlock HTS221_ADDR 0x2A 2 = .error e →
      SenseHATSensors.get_temperature_from_humidity ⟨bus, c⟩ = .error (.busError e))
    ∧ (∀ bus : Bus, bus.readBlock LPS25H_ADDR 0x2B 2 = .error e →
      SenseHATSensors.get_temperature_from_pressure ⟨bus, c⟩ = .error (.busError e))
    ∧ (∀ bus : Bus, bus.readBlock HTS221_ADDR 0x28 2 = .error e →
      SenseHATSensors.get_humidity ⟨bus, c⟩ = .error (.busError e))
    ∧ (∀ bus : Bus, bus.readBlock LPS25H_ADDR 0x28 3 = .error e →
      SenseHATSensors.get_pressure ⟨bus, c⟩ = .error (.busError e)) := by
  have htemp : ∀ bus : Bus, bus.readBlock HTS221_ADDR 0x2A 2 = .error e →
      SenseHATSensors.hts221_temp ⟨bus, c⟩ = .error (.busError e) := by
    intro bus hb
    unfold SenseHATSensors.hts221_temp
    rw [read_s16_error bus _ _ e hb]
  refine ⟨htemp, htemp, ?_, ?_, ?_⟩
  · intro bus hb
    unfold SenseHATSensors.get_temperature_from_pressure
    rw [read_s16_error bus _ _ e hb]
  · intro bus hb
    unfold SenseHATSensors.get_humidity
    rw [read_s16_error bus _ _ e hb]
  · intro bus hb
    unfold SenseHATSensors.get_pressure
    rw [hb]

/-- Witness for C7 at a concrete always-failing bus. -/
theorem bus_error_propagation_witness :
    SenseHATSensors.get_humidity ⟨failBus ⟨121⟩, calA⟩ = .error (.busError ⟨121⟩) :=
  (bus_error_propagation calA ⟨121⟩).2.2.2.1 (failBus ⟨121⟩) rfl

/-- Counterexample to C7 as stated: failures on different chips and
registers (HTS221 temperature register versus LPS25H pressure register)
reach the caller as literally the same error value, so the error does not
identify the failing chip or register. -/
theorem bus_error_context_free_cex :
    SenseHATSensors.hts221_temp ⟨failBus ⟨121⟩, calA⟩ =
      SenseHATSensors.get_pressure ⟨failBus ⟨121⟩, calA⟩
    ∧ SenseHATSensors.hts221_temp ⟨failBus ⟨121⟩, calA⟩ = .error (.busError ⟨121⟩) := by
  constructor <;> rfl

/-- The error is the distinguishable path-missing failure. -/
def isFileNotFound : PyError → Bool
  | .fileNotFoundError _ => true
  | _ => false

/-- C8 amended: construction against a bus number whose device path does
not exist fails with the distinguishable FileNotFoundError before the bus
is ever opened and before any driver state exists; when the path exists
but the open itself fails, the underlying bus error propagates unchanged. -/
theorem construction_failure_modes :
    (∀ (pathExists : String → Bool) (openBus : Nat → Except BusError Bus) (bus_num : Nat),
      pathExists (i2c_dev_path bus_num) = false →
      SenseHATSensors.init pathExists openBus bus_num =
        .error (.fileNotFoundError (fnf_message bus_num)))
    ∧ (∀ (pathExists : String → Bool) (openBus : Nat → Except BusError Bus)
        (bus_num : Nat) (e : BusError),
      pathExists (i2c_dev_path bus_num) = true → openBus bus_num = .error e →
      SenseHATSensors.init pathExists openBus bus_num = .error (.busError e)) := by
  constructor
  · intro pe ob bn h
    unfold SenseHATSensors.init
    rw [h]
    rfl
  · intro pe ob bn e h hob
    unfold SenseHATSensors.init
    rw [h, hob]
    rfl

/-- Witness for C8: a filesystem with no device path at all. -/
theorem construction_failure_modes_witness :
    SenseHATSensors.init (fun _ => false) (fun _ => .ok (rawBus 0)) 1 =
      .error (.fileNotFoundError (fnf_message 1)) :=
  construction_failure_modes.1 (fun _ => false) (fun _ => .ok (rawBus 0)) 1 rfl

/-- Counterexample to C8 as stated: when the device path exists but the
open itself fails (errno 13, permission denied), construction surfaces the
generic bus error unchanged, not a distinguishable bus-unavailable error. -/
theorem open_failure_generic_cex :
    SenseHATSensors.init (fun _ => true) (fun _ => .error ⟨13⟩) 1 = .error (.busError ⟨13⟩)
    ∧ isFileNotFound (.busError ⟨13⟩) = false := by
  constructor <;> rfl

/-- C6 amended: the temperature-anchor calibration decode is hard-coded to
the 10-bit two-register-combining layout: for every possible register
contents, initialization produces exactly the combined decode (two shared
high bits in front of the low byte, divided by 8); no capability flag or
chip-revision tag exists, and the single-byte layout is never produced. -/
theorem temp_cal_layout_hardcoded (h0x2 h1x2 t0l t1l msb : Nat)
    (h0out h1out t0out t1out hraw traw : Int)
    (hs0 : isS16 h0out) (hs1 : isS16 h1out) (hs2 : isS16 t0out) (hs3 : isS16 t1out)
    (hl0 : t0l < 256) (hl1 : t1l < 256) :
    init_hts221 (calSimBus h0x2 h1x2 t0l t1l msb h0out h1out t0out t1out hraw traw) =
      .ok { H0_rH := (h0x2 : ℚ) / 2, H1_rH := (h1x2 : ℚ) / 2
          , T0_degC := temp_anchor_combined_spec t0l (msb &&& 0x03)
          , T1_degC := temp_anchor_combined_spec t1l ((msb >>> 2) &&& 0x03)
          , H0_T0_OUT := h0out, H1_T0_OUT := h1out
          , T0_OUT := t0out, T1_OUT := t1out } := by
  have hr36 : read_s16 (calSimBus h0x2 h1x2 t0l t1l msb h0out h1out t0out t1out hraw traw)
      HTS221_ADDR 0x36 = .ok h0out := read_s16_s16ToBytes _ _ _ _ rfl hs0
  have hr3A : read_s16 (calSimBus h0x2 h1x2 t0l t1l msb h0out h1out t0out t1out hraw traw)
      HTS221_ADDR 0x3A = .ok h1out := read_s16_s16ToBytes _ _ _ _ rfl hs1
  have hr3C : read_s16 (calSimBus h0x2 h1x2 t0l t1l msb h0out h1out t0out t1out hraw traw)
      HTS221_ADDR 0x3C = .ok t0out := read_s16_s16ToBytes _ _ _ _ rfl hs2
  have hr3E : read_s16 (calSimBus h0x2 h1x2 t0l t1l msb h0out h1out t0out t1out hraw traw)
      HTS221_ADDR 0x3E = .ok t1out := read_s16_s16ToBytes _ _ _ _ rfl hs3
  unfold init_hts221
  rw [show (calSimBus h0x2 h1x2 t0l t1l msb h0out h1out t0out t1out hraw traw).writeByte
        HTS221_ADDR 0x20 0x87 = .ok () from rfl,
      show (calSimBus h0x2 h1x2 t0l t1l msb h0out h1out t0out t1out hraw traw).readByte
        HTS221_ADDR 0x30 = .ok h0x2 from rfl,
      show (calSimBus h0x2 h1x2 t0l t1l msb h0out h1out t0out t1out hraw traw).readByte
        HTS221_ADDR 0x31 = .ok h1x2 from rfl,
      show (calSimBus h0x2 h1x2 t0l t1l msb h0out h1out t0out t1out hraw traw).readByte
        HTS221_ADDR 0x32 = .ok t0l from rfl,
      show (calSimBus h0x2 h1x2 t0l t1l msb h0out h1out t0out t1out hraw traw).readByte
        HTS221_ADDR 0x33 = .ok t1l from rfl,
      show (calSimBus h0x2 h1x2 t0l t1l msb h0out h1out t0out t1out hraw traw).readByte
        HTS221_ADDR 0x35 = .ok msb from rfl,
      hr36, hr3A, hr3C, hr3E]
  dsimp only
  simp only [Except.ok.injEq, HTS221Cal.mk.injEq]
  refine ⟨by trivial, by trivial, ?_, ?_, by trivial, by trivial, by trivial, by trivial⟩
  · unfold temp_anchor_combined_spec
    rw [shl8_lor_byte _ _ hl0]
  · unfold temp_anchor_combined_spec
    rw [shl8_lor_byte _ _ hl1]

/-- Witness for C6 at concrete register contents, evaluated. -/
theorem temp_cal_layout_hardcoded_witness :
    init_hts221 (calSimBus 80 180 32 64 9 100 1100 0 0 600 0) =
      .ok { H0_rH := 40, H1_rH := 90
          , T0_degC := 36, T1_degC := 72
          , H0_T0_OUT := 100, H1_T0_OUT := 1100, T0_OUT := 0, T1_OUT := 0 } := by
  have h := temp_cal_layout_hardcoded 80 180 32 64 9 100 1100 0 0 600 0
    (by decide) (by decide) (by decide) (by decide) (by decide) (by decide)
  rw [h]
  simp only [Except.ok.injEq, HTS221Cal.mk.injEq]
  norm_num [temp_anchor_combined_spec,
    show (9 &&& 0x03 : Nat) = 1 from by decide,
    show (9 >>> 2 &&& 0x03 : Nat) = 2 from by decide]

/-- Counterexample to C6 as stated: initialization, whose only inputs are
the bus register contents, decodes the shared register 0x35 in the 10-bit
combining way; at these contents it yields T0_degC equal to 96 where the
alternate single-byte layout demands 0, so that layout is not available
through any flag. -/
theorem temp_cal_layout_hardcoded_cex :
    (init_hts221 (calSimBus 0 0 0 0 3 0 0 0 0 0 0)).map (fun c => c.T0_degC) = .ok 96
    ∧ temp_anchor_single_spec 0 = 0
    ∧ (96 : ℚ) ≠ 0 := by
  refine ⟨?_, by norm_num [temp_anchor_single_spec], by norm_num⟩
  norm_num [init_hts221, calSimBus, read_s16, bytesOk, unpack_s16, s16ToBytes,
    Except.map, HTS221_ADDR, show Int.toNat 0 = 0 from rfl,
    show ((3 &&& 3) <<< 8 ||| (0 : Nat)) = 768 from by decide,
    show ((3 : Nat) <<< 8) = 768 from by decide,
    show ((3 >>> 2 &&& 3) <<< 8 ||| (0 : Nat)) = 0 from by decide]

/-- With distinct anchors and distinct reference values, the interpolation
value at a raw reading strictly outside the anchor span is strictly
outside the reference interval. -/
theorem interp_outside (v0 v1 : ℚ) (r0 r1 raw : Int) (hr : r0 ≠ r1) (hv : v0 ≠ v1)
    (hout : outsideZ raw r0 r1) :
    outsideQ (linear_interp_spec v0 v1 r0 r1 raw) v0 v1 := by
  have hd : (r1 : ℚ) - (r0 : ℚ) ≠ 0 := by
    have : (r1 : ℚ) ≠ (r0 : ℚ) := by exact_mod_cast hr.symm
    exact sub_ne_zero_of_ne this
  set q : ℚ := (v1 - v0) / ((r1 : ℚ) - (r0 : ℚ)) with hq
  have hqne : q ≠ 0 := div_ne_zero (sub_ne_zero_of_ne (Ne.symm hv)) hd
  have hval0 : linear_interp_spec v0 v1 r0 r1 raw - v0 = ((raw : ℚ) - r0) * q := by
    unfold linear_interp_spec
    rw [hq]
    ring
  have hval1 : linear_interp_spec v0 v1 r0 r1 raw - v1 = ((raw : ℚ) - r1) * q := by
    unfold linear_interp_spec
    rw [hq]
    field_simp
    ring
  rcases hout with h | h
  · have hA : (raw : ℚ) - r0 < 0 := by
      have h0 : raw < r0 := lt_of_lt_of_le h (min_le_left r0 r1)
      have h0q : (raw : ℚ) < r0 := by exact_mod_cast h0
      linarith
    have hB : (raw : ℚ) - r1 < 0 := by
      have h1 : raw < r1 := lt_of_lt_of_le h (min_le_right r0 r1)
      have h1q : (raw : ℚ) < r1 := by exact_mod_cast h1
      linarith
    rcases lt_or_gt_of_ne hqne with hqneg | hqpos
    · right
      have h1 : 0 < linear_interp_spec v0 v1 r0 r1 raw - v0 := by
        rw [hval0]; exact mul_pos_of_neg_of_neg hA hqneg
      have h2 : 0 < linear_interp_spec v0 v1 r0 r1 raw - v1 := by
        rw [hval1]; exact mul_pos_of_neg_of_neg hB hqneg
      exact max_lt (by linarith) (by linarith)
    · left
      have h1 : linear_interp_spec v0 v1 r0 r1 raw - v0 < 0 := by
        rw [hval0]; exact mul_neg_of_neg_of_pos hA hqpos
      have h2 : linear_interp_spec v0 v1 r0 r1 raw - v1 < 0 := by
        rw [hval1]; exact mul_neg_of_neg_of_pos hB hqpos
      exact lt_min (by linarith) (by linarith)
  · have hA : 0 < (raw : ℚ) - r0 := by
      have h0 : r0 < raw := lt_of_le_of_lt (le_max_left r0 r1) h
      have h0q : (r0 : ℚ) < raw := by exact_mod_cast h0
      linarith
    have hB : 0 < (raw : ℚ) - r1 := by
      have h1 : r1 < raw := lt_of_le_of_lt (le_max_right r0 r1) h
      have h1q : (r1 : ℚ) < raw := by exact_mod_cast h1
      linarith
    rcases lt_or_gt_of_ne hqne with hqneg | hqpos
    · left
      have h1 : linear_interp_spec v0 v1 r0 r1 raw - v0 < 0 := by
        rw [hval0]; exact mul_neg_of_pos_of_neg hA hqneg
      have h2 : linear_interp_spec v0 v1 r0 r1 raw - v1 < 0 := by
        rw [hval1]; exact mul_neg_of_pos_of_neg hB hqneg
      exact lt_min (by linarith) (by linarith)
    · right
      have h1 : 0 < linear_interp_spec v0 v1 r0 r1 raw - v0 := by
        rw [hval0]; exact mul_pos hA hqpos
      have h2 : 0 < linear_interp_spec v0 v1 r0 r1 raw - v1 := by
        rw [hval1]; exact mul_pos hB hqpos
      exact max_lt (by linarith) (by linarith)

/-- C10 amended: with distinct anchors and distinct reference values per
quantity, a raw 16-bit reading strictly outside the anchor span produces a
value strictly outside the reference interval, with no clamping at the
public interface; in particular a concrete calibration yields a humidity
of 140 percent, above 100. -/
theorem unclamped_extrapolation (c : HTS221Cal) (raw : Int) (hs : isS16 raw)
    (hrH : c.H0_T0_OUT ≠ c.H1_T0_OUT) (hvH : c.H0_rH ≠ c.H1_rH)
    (houtH : outsideZ raw c.H0_T0_OUT c.H1_T0_OUT)
    (hrT : c.T0_OUT ≠ c.T1_OUT) (hvT : c.T0_degC ≠ c.T1_degC)
    (houtT : outsideZ raw c.T0_OUT c.T1_OUT) :
    ((SenseHATSensors.get_humidity ⟨rawBus raw, c⟩).map Prod.fst =
        .ok (linear_interp_spec c.H0_rH c.H1_rH c.H0_T0_OUT c.H1_T0_OUT raw)
      ∧ outsideQ (linear_interp_spec c.H0_rH c.H1_rH c.H0_T0_OUT c.H1_T0_OUT raw)
          c.H0_rH c.H1_rH)
    ∧ ((SenseHATSensors.hts221_temp ⟨rawBus raw, c⟩).map Prod.fst =
        .ok (linear_interp_spec c.T0_degC c.T1_degC c.T0_OUT c.T1_OUT raw)
      ∧ outsideQ (linear_interp_spec c.T0_degC c.T1_degC c.T0_OUT c.T1_OUT raw)
          c.T0_degC c.T1_degC)
    ∧ (SenseHATSensors.get_humidity ⟨rawBus 2100, calA⟩).map Prod.fst = .ok 140
    ∧ (100 : ℚ) < 140 := by
  refine ⟨⟨?_, interp_outside _ _ _ _ _ hrH hvH houtH⟩,
          ⟨?_, interp_outside _ _ _ _ _ hrT hvT houtT⟩, ?_, by norm_num⟩
  · rw [get_humidity_rawBus c raw hs (Ne.symm hrH)]
    rfl
  · rw [hts221_temp_rawBus c raw hs (Ne.symm hrT)]
    rfl
  · rw [get_humidity_rawBus calA 2100 (by decide) (by decide)]
    simp only [Except.map, Except.ok.injEq]
    norm_num [linear_interp_spec, calA]

/-- Witness for C10 at a concrete calibration and out-of-span reading. -/
theorem unclamped_extrapolation_witness :
    (SenseHATSensors.get_humidity ⟨rawBus 2000, calA⟩).map Prod.fst =
      .ok (linear_interp_spec calA.H0_rH calA.H1_rH calA.H0_T0_OUT calA.H1_T0_OUT 2000)
    ∧ outsideQ (linear_interp_spec calA.H0_rH calA.H1_rH calA.H0_T0_OUT calA.H1_T0_OUT 2000)
        calA.H0_rH calA.H1_rH :=
  (unclamped_extrapolation calA 2000 (by decide) (by decide) (by norm_num [calA])
    (by show (2000 : ℤ) < min 100 1100 ∨ max 100 1100 < 2000
        exact Or.inr (by norm_num [max_def]))
    (by decide) (by norm_num [calA])
    (by show (2000 : ℤ) < min 0 1000 ∨ max 0 1000 < 2000
        exact Or.inr (by norm_num [max_def]))).1

/-- Counterexample to C10 as stated: with equal reference values (a legal
calibration: both humidity reference bytes coincide) the interpolation is
constant, so a raw reading far outside the anchor span still returns a
value inside the reference interval. -/
theorem extrapolation_not_outside_cex :
    outsideZ 200 calEqRef.H0_T0_OUT calEqRef.H1_T0_OUT
    ∧ (SenseHATSensors.get_humidity ⟨rawBus 200, calEqRef⟩).map Prod.fst = .ok 50
    ∧ ¬ outsideQ 50 calEqRef.H0_rH calEqRef.H1_rH := by
  refine ⟨Or.inr (by norm_num [calEqRef, outsideZ]), ?_, ?_⟩
  · rw [get_humidity_rawBus calEqRef 200 (by decide) (by decide)]
    simp only [Except.map, Except.ok.injEq]
    norm_num [linear_interp_spec, calEqRef]
  · unfold outsideQ calEqRef
    norm_num

end SenseHat
